import Mathlib

/-!
Shallow embedding of the Agentic-Onboarding-Flow repository
(src/main.py, src/apis/gmail_apis.py, src/apis/asana_apis.py).

Dates are modelled as integers (days); the employee store is a list of
records in row order; external collaborators (LLM, Gmail, Asana,
Calendar) are modelled by an environment that says, for each call,
whether the collaborator succeeds or fails, and every outbound call is
recorded in an effect trace.  Exceptions are modelled as `Except` errors
carrying the in-place-mutated state at the moment of the raise, matching
Python dict mutation semantics.
-/

namespace Onboarding

/-- Employee record, one row of the `employees` table in main.py. -/
structure Employee where
  id : Nat
  name : String
  email : String
  role : String
  department : String
  date_joined : Int
  location : String
  level : String
  manager_email : Option String
deriving DecidableEq, Repr

/-- `find_new_joiners_data_engineers` (main.py lines 85-94): read-only
filter of the store by role, join-date cutoff and level. -/
def find_new_joiners_data_engineers (db : List Employee) (today : Int)
    (joined_since_days : Nat) : List Employee :=
  db.filter fun e =>
    e.role == "Data Engineer"
      && decide (today - (joined_since_days : Int) ≤ e.date_joined)
      && e.level == "junior"

/-- The row kept by `pickEarlier` on a tie is the accumulator, i.e. the
earlier row in store order, modelling the deterministic result SQLite
gives `ORDER BY date(date_joined) ASC LIMIT 1` on fixed contents. -/
def pickEarlier (a b : Employee) : Employee :=
  if b.date_joined < a.date_joined then b else a

/-- `SELECT ... ORDER BY date(date_joined) ASC LIMIT 1` over a row set. -/
def earliestJoined : List Employee → Option Employee
  | [] => none
  | e :: rest => some (rest.foldl pickEarlier e)

/-- Senior Data Engineer predicate used by both mentor queries. -/
def isSeniorDE (e : Employee) : Bool :=
  e.role == "Data Engineer" && e.level == "senior"

/-- Rows matching the first (location-restricted) mentor query. -/
def locCandidates (db : List Employee) (preferred_location : String) : List Employee :=
  db.filter fun e => isSeniorDE e && e.location == preferred_location

/-- Rows matching the fallback (global) mentor query. -/
def allCandidates (db : List Employee) : List Employee :=
  db.filter isSeniorDE

/-- `find_senior_mentor` (main.py lines 96-116): earliest-joined senior
Data Engineer at the preferred location, else earliest-joined senior
Data Engineer anywhere, else `None`. -/
def find_senior_mentor (db : List Employee) (preferred_location : String) :
    Option Employee :=
  match earliestJoined (locCandidates db preferred_location) with
  | some row => some row
  | none => earliestJoined (allCandidates db)

/- ------------------------------------------------------------
   Basic facts about earliestJoined
   ------------------------------------------------------------ -/

theorem pickEarlier_cases (a b : Employee) :
    pickEarlier a b = a ∨ pickEarlier a b = b := by
  unfold pickEarlier
  by_cases hd : b.date_joined < a.date_joined
  · simp [hd]
  · simp [hd]

theorem pickEarlier_le_left (a b : Employee) :
    (pickEarlier a b).date_joined ≤ a.date_joined := by
  unfold pickEarlier
  by_cases hd : b.date_joined < a.date_joined
  · simp [hd]; omega
  · simp [hd]

theorem pickEarlier_le_right (a b : Employee) :
    (pickEarlier a b).date_joined ≤ b.date_joined := by
  unfold pickEarlier
  by_cases hd : b.date_joined < a.date_joined
  · simp [hd]
  · simp [hd]; omega

theorem foldl_pickEarlier_mem (rows : List Employee) :
    ∀ a : Employee, rows.foldl pickEarlier a ∈ a :: rows := by
  induction rows with
  | nil => intro a; simp [List.foldl]
  | cons b rest ih =>
      intro a
      have h := ih (pickEarlier a b)
      simp only [List.foldl]
      rcases List.mem_cons.mp h with h1 | h1
      · rcases pickEarlier_cases a b with hp | hp
        · simp [List.mem_cons, h1.trans hp]
        · simp [List.mem_cons, h1.trans hp]
      · simp [List.mem_cons, h1]

theorem foldl_pickEarlier_le_init (rows : List Employee) :
    ∀ a : Employee, (rows.foldl pickEarlier a).date_joined ≤ a.date_joined := by
  induction rows with
  | nil => intro a; simp [List.foldl]
  | cons b rest ih =>
      intro a
      simp only [List.foldl]
      have h := ih (pickEarlier a b)
      have h2 := pickEarlier_le_left a b
      omega

theorem foldl_pickEarlier_le (rows : List Employee) :
    ∀ a x : Employee, x ∈ rows → (rows.foldl pickEarlier a).date_joined ≤ x.date_joined := by
  induction rows with
  | nil => intro a x hx; simp at hx
  | cons b rest ih =>
      intro a x hx
      simp only [List.foldl]
      rcases List.mem_cons.mp hx with h1 | h1
      · subst h1
        have h := foldl_pickEarlier_le_init rest (pickEarlier a x)
        have h2 := pickEarlier_le_right a x
        omega
      · exact ih (pickEarlier a b) x h1

theorem earliestJoined_mem {rows : List Employee} {m : Employee}
    (h : earliestJoined rows = some m) : m ∈ rows := by
  cases rows with
  | nil => simp [earliestJoined] at h
  | cons e rest =>
      simp only [earliestJoined, Option.some.injEq] at h
      subst h
      exact foldl_pickEarlier_mem rest e

theorem earliestJoined_min {rows : List Employee} {m : Employee}
    (h : earliestJoined rows = some m) :
    ∀ x ∈ rows, m.date_joined ≤ x.date_joined := by
  cases rows with
  | nil => simp [earliestJoined] at h
  | cons e rest =>
      simp only [earliestJoined, Option.some.injEq] at h
      subst h
      intro x hx
      rcases List.mem_cons.mp hx with h1 | h1
      · subst h1; exact foldl_pickEarlier_le_init rest x
      · exact foldl_pickEarlier_le rest e x h1

theorem earliestJoined_ne_nil {rows : List Employee} (h : rows ≠ []) :
    ∃ m, earliestJoined rows = some m := by
  cases rows with
  | nil => exact absurd rfl h
  | cons e rest => exact ⟨rest.foldl pickEarlier e, rfl⟩

theorem earliestJoined_nil_of_eq {rows : List Employee} (h : rows = []) :
    earliestJoined rows = none := by
  subst h; rfl

/- ------------------------------------------------------------
   Pipeline state, effects and the collaborator environment
   ------------------------------------------------------------ -/

/-- One entry of the state's audit log: `append_log` (main.py 188-192)
stores a timestamp and a message. -/
structure LogEntry where
  time : Nat
  msg : String
deriving DecidableEq, Repr

/-- A datetime as built by `datetime.combine(next_week, time(h, m))`. -/
structure DateTime where
  day : Int
  hour : Nat
  minute : Nat
deriving DecidableEq, Repr

/-- One reminder override, method plus minutes. -/
structure Reminder where
  method : String
  minutes : Nat
deriving DecidableEq, Repr

/-- The event body built by `schedule_calendar_event`
(gmail_apis.py 119-177). -/
structure CalendarReq where
  summary : String
  meetLocation : String
  description : String
  startTime : DateTime
  endTime : DateTime
  attendees : List String
  timezone : String
  useDefault : Bool
  reminders : List Reminder
  requestId : String
deriving DecidableEq, Repr

/-- `EmpState` (main.py 179-186): the per-employee mutable accumulator.
A `none` outer layer means the key is not yet in the dict; the inner
`Option` of a result field is `None` returned by a collaborator wrapper
on a swallowed error. -/
structure EmpState where
  employee : Employee
  email_body : Option String
  email_result : Option (Option String)
  asana_task : Option (Option String)
  mentor : Option Employee
  calendar_event : Option (Option CalendarReq)
  logs : List LogEntry
deriving DecidableEq, Repr

/-- Outbound calls to external collaborators, in the order they are
issued. -/
inductive Effect where
  | genText (name : String)
  | deliver (sender recipient subject : String)
  | inviteWorkspace (workspace email : String)
  | createTask (workspace project assignee title : String)
  | mentorQuery (location : String)
  | insertEvent (req : CalendarReq)
deriving DecidableEq, Repr

/-- Behaviour of the external collaborators during one run: for each
call, whether it succeeds, and the configured identifiers read from the
process environment. -/
structure Env where
  llm : Employee → Except String String
  gmailDeliveryOk : String → Bool
  asanaCreateOk : String → Bool
  calendarInsertOk : String → Bool
  workspaceGid : String
  projectGid : String

/-- `append_log` (main.py 188-192): append one timestamped entry. -/
def append_log (state : EmpState) (t : Nat) (msg : String) : EmpState :=
  { state with logs := state.logs ++ [⟨t, msg⟩] }

/- ------------------------------------------------------------
   Collaborator adapters (gmail_apis.py, asana_apis.py)
   ------------------------------------------------------------ -/

/-- `send_message` (gmail_apis.py 54-72): an `HttpError` is caught and
`None` is returned, success returns the sent-message metadata. -/
def send_message (env : Env) (recipient : String) : Option String :=
  if env.gmailDeliveryOk recipient then some "sent-message-id" else none

/-- `send_gmail` (gmail_apis.py 74-91): authenticate, build the MIME
message and deliver it; the delivery call is the recorded effect. -/
def send_gmail (env : Env) (sender_email recipient_email subject : String) :
    List Effect × Option String :=
  ([Effect.deliver sender_email recipient_email subject],
   send_message env recipient_email)

/-- `invite_user_to_workspace` (asana_apis.py 6-22): performs the invite
call; an `ApiException` is caught and ignored, nothing is returned. -/
def invite_user_to_workspace (workspace_gid new_member_email : String) :
    List Effect :=
  [Effect.inviteWorkspace workspace_gid new_member_email]

/-- `create_task` (asana_apis.py 25-49): an `ApiException` is caught and
`None` is returned, success returns the created task. -/
def create_task (env : Env) (workspace_gid project_gid assignee_email task_name : String) :
    List Effect × Option String :=
  ([Effect.createTask workspace_gid project_gid assignee_email task_name],
   if env.asanaCreateOk assignee_email then some task_name else none)

/-- `create_onboarding_tasks` (asana_apis.py 51-75): invite the member
to the workspace first, then create the onboarding task. -/
def create_onboarding_tasks (env : Env)
    (workspace_gid project_gid new_member_email task_name : String) :
    List Effect × Option String :=
  let inviteEffects := invite_user_to_workspace workspace_gid new_member_email
  let r := create_task env workspace_gid project_gid new_member_email task_name
  (inviteEffects ++ r.1, r.2)

/-- `schedule_calendar_event` (gmail_apis.py 119-193): build the event
body (empty reminders fall back to the two defaults) and insert it; an
`HttpError` is caught and `None` is returned. -/
def schedule_calendar_event (env : Env)
    (summary location description : String) (startTime endTime : DateTime)
    (attendees_emails : List String) (timezone : String)
    (reminders : List Reminder) (conference_request_id : String) :
    List Effect × Option CalendarReq :=
  let event_details : CalendarReq :=
    { summary := summary, meetLocation := location, description := description,
      startTime := startTime, endTime := endTime, attendees := attendees_emails,
      timezone := timezone, useDefault := false,
      reminders := if reminders.isEmpty
        then [⟨"email", 24 * 60⟩, ⟨"popup", 30⟩] else reminders,
      requestId := conference_request_id }
  ([Effect.insertEvent event_details],
   if env.calendarInsertOk conference_request_id then some event_details else none)

/- ------------------------------------------------------------
   Graph nodes (main.py 197-268)
   ------------------------------------------------------------ -/

/-- Result of one node: the effects it issued, and either the returned
state or the raised message paired with the state at the raise. -/
abbrev NodeRes := List Effect × Except (String × EmpState) EmpState

/-- `node_generate_email` (main.py 197-201): draft the body via the LLM
chain; a generation error propagates as an exception. -/
def node_generate_email (env : Env) (t : Nat) (s : EmpState) : NodeRes :=
  let emp := s.employee
  match env.llm emp with
  | Except.error e => ([Effect.genText emp.name], Except.error (e, s))
  | Except.ok body =>
      let s1 := { s with email_body := some body }
      ([Effect.genText emp.name],
       Except.ok (append_log s1 t ("Generated email for " ++ emp.email)))

/-- `node_send_email` (main.py 203-213): deliver the drafted body; the
delivery result (metadata or `None`) is stored either way. -/
def node_send_email (env : Env) (t : Nat) (s : EmpState) : NodeRes :=
  let emp := s.employee
  match s.email_body with
  | none => ([], Except.error ("KeyError: email_body", s))
  | some _ =>
      let subject := "Welcome to the team, " ++ emp.name ++ "!"
      let r := send_gmail env "me" emp.email subject
      let s1 := { s with email_result := some r.2 }
      (r.1, Except.ok (append_log s1 t ("Sent welcome email to " ++ emp.email)))

/-- `node_asana_task` (main.py 215-228): invite to the workspace and
file the onboarding task; the result (task or `None`) is stored. -/
def node_asana_task (env : Env) (t : Nat) (s : EmpState) : NodeRes :=
  let emp := s.employee
  let task_name := "Onboarding for " ++ emp.name ++ " - Data Engineer"
  let r := create_onboarding_tasks env env.workspaceGid env.projectGid emp.email task_name
  let s1 := { s with asana_task := some r.2 }
  (r.1, Except.ok (append_log s1 t ("Created Asana task for " ++ emp.email)))

/-- `node_find_mentor` (main.py 230-236): query the store; absence of a
mentor raises before any log entry is appended. -/
def node_find_mentor (db : List Employee) (t : Nat) (s : EmpState) : NodeRes :=
  let emp := s.employee
  let effects := [Effect.mentorQuery emp.location]
  match find_senior_mentor db emp.location with
  | none => (effects, Except.error ("No senior mentor available for " ++ emp.name, s))
  | some mentor =>
      let s1 := { s with mentor := some mentor }
      (effects,
       Except.ok (append_log s1 t ("Selected mentor " ++ mentor.name ++ " for " ++ emp.email)))

/-- `node_schedule_intro_call` (main.py 238-268): meeting next week,
same weekday, 10:00 to 11:00 Asia/Kolkata, employee and mentor as the
attendees, popup reminder, request id from employee id and date. -/
def node_schedule_intro_call (env : Env) (today : Int) (t : Nat) (s : EmpState) : NodeRes :=
  let emp := s.employee
  match s.mentor with
  | none => ([], Except.error ("KeyError: mentor", s))
  | some mentor =>
      let next_week : Int := today + 7
      let start_dt : DateTime := ⟨next_week, 10, 0⟩
      let end_dt : DateTime := ⟨next_week, 11, 0⟩
      let summary := "Intro chat: " ++ emp.name ++ " x " ++ mentor.name ++ " (Data Platform)"
      let description :=
        "Welcome " ++ emp.name ++ ".\n" ++
        "Mentor: " ++ mentor.name ++ " (" ++ mentor.email ++ ").\n" ++
        "Agenda: Meet the team, tooling overview, first week goals.\n" ++
        "Manager: " ++ (match emp.manager_email with | some m => m | none => "N/A") ++ ".\n"
      let r := schedule_calendar_event env summary "Google Meet" description
        start_dt end_dt [emp.email, mentor.email] "Asia/Kolkata"
        [⟨"popup", 30⟩]
        ("mentor-" ++ toString emp.id ++ "-" ++ toString next_week)
      let s1 := { s with calendar_event := some r.2 }
      (r.1, Except.ok (append_log s1 t ("Scheduled mentor call for " ++ emp.email)))

/- ------------------------------------------------------------
   Per-employee chain and orchestrator (main.py 273-333)
   ------------------------------------------------------------ -/

/-- Sequence two chained nodes: effects accumulate; after a raise the
rest of the chain does not run. -/
def stepBind (r : NodeRes) (f : EmpState → NodeRes) : NodeRes :=
  match r with
  | (es, Except.error e) => (es, Except.error e)
  | (es, Except.ok s) =>
      let r2 := f s
      (es ++ r2.1, r2.2)

/-- The fresh state the orchestrator seeds for one employee
(main.py 322): the employee plus an empty log. -/
def initState (emp : Employee) : EmpState :=
  { employee := emp, email_body := none, email_result := none,
    asana_task := none, mentor := none, calendar_event := none, logs := [] }

/-- `build_employee_graph` + `compiled.invoke` (main.py 273-289, 324):
the five nodes chained in their fixed edge order, starting from the
fresh state.  `clk k` is the wall-clock reading of the k-th node's
`append_log` call. -/
def runPipeline (db : List Employee) (env : Env) (today : Int)
    (clk : Nat → Nat) (emp : Employee) : NodeRes :=
  stepBind (node_generate_email env (clk 0) (initState emp)) fun s1 =>
  stepBind (node_send_email env (clk 1) s1) fun s2 =>
  stepBind (node_asana_task env (clk 2) s2) fun s3 =>
  stepBind (node_find_mentor db (clk 3) s3) fun s4 =>
  node_schedule_intro_call env today (clk 4) s4

/-- The run summary dict returned by `run_onboarding_for_new_joiners`;
`message` is present only on the empty-query early return. -/
structure RunSummary where
  processed : Nat
  successes : Nat
  failures : List String
  message : Option String
deriving DecidableEq, Repr

/-- The per-employee loop (main.py 321-327): each employee runs on a
fresh state; an exception is caught at this boundary, recorded as
"email: reason", and the loop continues.  `clocks i` is the clock for
the i-th employee. -/
def processAll (db : List Employee) (env : Env) (today : Int)
    (clocks : Nat → Nat → Nat) : Nat → List Employee → Nat × List String × List Effect
  | _, [] => (0, [], [])
  | i, emp :: rest =>
      let r := runPipeline db env today (clocks i) emp
      let acc := processAll db env today clocks (i + 1) rest
      match r.2 with
      | Except.ok _ => (acc.1 + 1, acc.2.1, r.1 ++ acc.2.2)
      | Except.error e => (acc.1, (emp.email ++ ": " ++ e.1) :: acc.2.1, r.1 ++ acc.2.2)

/-- `run_onboarding_for_new_joiners` (main.py 300-333): query once; on
an empty result return the zero summary with the message and do nothing
else; otherwise run every eligible employee and aggregate. -/
def run_onboarding_for_new_joiners (db : List Employee) (env : Env) (today : Int)
    (clocks : Nat → Nat → Nat) (joined_since_days : Nat) :
    List Effect × RunSummary :=
  let new_joiners := find_new_joiners_data_engineers db today joined_since_days
  if new_joiners.isEmpty then
    ([], ⟨0, 0, [], some "No new Data Engineers found"⟩)
  else
    let r := processAll db env today clocks 0 new_joiners
    (r.2.2, ⟨new_joiners.length, r.1, r.2.1, none⟩)

/- ------------------------------------------------------------
   Closed forms of one pipeline run
   ------------------------------------------------------------ -/

/-- Welcome-mail subject built in `node_send_email`. -/
def subjectOf (emp : Employee) : String :=
  "Welcome to the team, " ++ emp.name ++ "!"

/-- Task title built in `node_asana_task`. -/
def taskNameOf (emp : Employee) : String :=
  "Onboarding for " ++ emp.name ++ " - Data Engineer"

/-- The event body `node_schedule_intro_call` submits for an employee
processed on `today` with the given mentor. -/
def calendarReqOf (emp mentor : Employee) (today : Int) : CalendarReq :=
  { summary := "Intro chat: " ++ emp.name ++ " x " ++ mentor.name ++ " (Data Platform)",
    meetLocation := "Google Meet",
    description :=
      "Welcome " ++ emp.name ++ ".\n" ++
      "Mentor: " ++ mentor.name ++ " (" ++ mentor.email ++ ").\n" ++
      "Agenda: Meet the team, tooling overview, first week goals.\n" ++
      "Manager: " ++ (match emp.manager_email with | some m => m | none => "N/A") ++ ".\n",
    startTime := ⟨today + 7, 10, 0⟩, endTime := ⟨today + 7, 11, 0⟩,
    attendees := [emp.email, mentor.email], timezone := "Asia/Kolkata",
    useDefault := false, reminders := [⟨"popup", 30⟩],
    requestId := "mentor-" ++ toString emp.id ++ "-" ++ toString (today + 7) }

/-- State after the first three nodes have returned. -/
def stateThree (env : Env) (clk : Nat → Nat) (emp : Employee) (body : String) : EmpState :=
  { employee := emp, email_body := some body,
    email_result := some (send_message env emp.email),
    asana_task := some (if env.asanaCreateOk emp.email then some (taskNameOf emp) else none),
    mentor := none, calendar_event := none,
    logs := [⟨clk 0, "Generated email for " ++ emp.email⟩,
             ⟨clk 1, "Sent welcome email to " ++ emp.email⟩,
             ⟨clk 2, "Created Asana task for " ++ emp.email⟩] }

/-- State after all five nodes have returned. -/
def finalState (env : Env) (today : Int) (clk : Nat → Nat) (emp : Employee)
    (body : String) (mentor : Employee) : EmpState :=
  { employee := emp, email_body := some body,
    email_result := some (send_message env emp.email),
    asana_task := some (if env.asanaCreateOk emp.email then some (taskNameOf emp) else none),
    mentor := some mentor,
    calendar_event := some (if env.calendarInsertOk (calendarReqOf emp mentor today).requestId
      then some (calendarReqOf emp mentor today) else none),
    logs := [⟨clk 0, "Generated email for " ++ emp.email⟩,
             ⟨clk 1, "Sent welcome email to " ++ emp.email⟩,
             ⟨clk 2, "Created Asana task for " ++ emp.email⟩,
             ⟨clk 3, "Selected mentor " ++ mentor.name ++ " for " ++ emp.email⟩,
             ⟨clk 4, "Scheduled mentor call for " ++ emp.email⟩] }

/-- Effects issued by the chain through the mentor query. -/
def effectsUpToMentor (env : Env) (emp : Employee) : List Effect :=
  [Effect.genText emp.name,
   Effect.deliver "me" emp.email (subjectOf emp),
   Effect.inviteWorkspace env.workspaceGid emp.email,
   Effect.createTask env.workspaceGid env.projectGid emp.email (taskNameOf emp),
   Effect.mentorQuery emp.location]

/-- Total case analysis of one pipeline run: the LLM call is the only
node that can raise before the mentor query, and mentor absence is the
only later raise; every branch is given in closed form. -/
theorem runPipeline_eq (db : List Employee) (env : Env) (today : Int)
    (clk : Nat → Nat) (emp : Employee) :
    runPipeline db env today clk emp =
      match env.llm emp with
      | Except.error e => ([Effect.genText emp.name], Except.error (e, initState emp))
      | Except.ok body =>
          match find_senior_mentor db emp.location with
          | none =>
              (effectsUpToMentor env emp,
               Except.error ("No senior mentor available for " ++ emp.name,
                             stateThree env clk emp body))
          | some mentor =>
              (effectsUpToMentor env emp
                 ++ [Effect.insertEvent (calendarReqOf emp mentor today)],
               Except.ok (finalState env today clk emp body mentor)) := by
  cases hllm : env.llm emp with
  | error e =>
      simp [runPipeline, stepBind, node_generate_email, hllm, initState]
  | ok body =>
      cases hfm : find_senior_mentor db emp.location with
      | none =>
          simp [runPipeline, stepBind, node_generate_email, node_send_email,
                node_asana_task, node_find_mentor, hllm, hfm, append_log, initState,
                send_gmail, create_onboarding_tasks, invite_user_to_workspace,
                create_task, stateThree, effectsUpToMentor, subjectOf, taskNameOf]
      | some mentor =>
          simp [runPipeline, stepBind, node_generate_email, node_send_email,
                node_asana_task, node_find_mentor, node_schedule_intro_call,
                hllm, hfm, append_log, initState, send_gmail,
                create_onboarding_tasks, invite_user_to_workspace, create_task,
                schedule_calendar_event, finalState, effectsUpToMentor,
                subjectOf, taskNameOf, calendarReqOf]

/- ------------------------------------------------------------
   Concrete fixtures for witnesses and counterexamples
   ------------------------------------------------------------ -/

/-- A junior Data Engineer in Bengaluru, joined on day 100. -/
def empA : Employee :=
  ⟨1, "Kaushal", "kaushal@example.com", "Data Engineer", "Data Platform",
   100, "Bengaluru", "junior", some "lead.de@example.com"⟩

/-- A junior Data Engineer in Pune, joined on day 95. -/
def empB : Employee :=
  ⟨5, "Asha", "asha@example.com", "Data Engineer", "Data Platform",
   95, "Pune", "junior", some "lead.de@example.com"⟩

/-- A senior Data Engineer in Bengaluru, joined on day 40. -/
def mentorB : Employee :=
  ⟨3, "Neeraj", "neeraj@example.com", "Data Engineer", "Data Platform",
   40, "Bengaluru", "senior", some "director.de@example.com"⟩

/-- A senior Data Engineer in Pune, joined on day 10. -/
def mentorP : Employee :=
  ⟨4, "Sneha", "sneha@example.com", "Data Engineer", "Data Platform",
   10, "Pune", "senior", some "director.de@example.com"⟩

/-- Store with one junior and two seniors. -/
def dbMain : List Employee := [empA, mentorB, mentorP]

/-- Store with two juniors and one senior. -/
def dbTwo : List Employee := [empA, empB, mentorB]

/-- Store with no senior employee at all. -/
def dbNoSenior : List Employee := [empA]

/-- Store with two seniors sharing the earliest join date. -/
def dbTie : List Employee := [empA, mentorB, ⟨6, "Ravi", "ravi@example.com",
  "Data Engineer", "Data Platform", 40, "Bengaluru", "senior", none⟩]

/-- A second store with the same contents as `dbTie`. -/
def dbTieCopy : List Employee := [empA, mentorB, ⟨6, "Ravi", "ravi@example.com",
  "Data Engineer", "Data Platform", 40, "Bengaluru", "senior", none⟩]

/-- Every collaborator succeeds. -/
def envAllOk : Env :=
  ⟨fun _ => Except.ok "<html>welcome</html>",
   fun _ => true, fun _ => true, fun _ => true, "W1", "P1"⟩

/-- Gmail delivery hits an `HttpError` for every recipient. -/
def envMailFail : Env :=
  ⟨fun _ => Except.ok "<html>welcome</html>",
   fun _ => false, fun _ => true, fun _ => true, "W1", "P1"⟩

/-- Asana task creation hits an `ApiException` for every assignee. -/
def envTaskFail : Env :=
  ⟨fun _ => Except.ok "<html>welcome</html>",
   fun _ => true, fun _ => false, fun _ => true, "W1", "P1"⟩

/-- The LLM raises for Asha and succeeds for everyone else. -/
def envAshaLlmFails : Env :=
  ⟨fun e => if e.id == 5 then Except.error "generation error" else Except.ok "<html>welcome</html>",
   fun _ => true, fun _ => true, fun _ => true, "W1", "P1"⟩

/-- A concrete clock: the k-th log call happens at time k. -/
def clkId : Nat → Nat := fun k => k

/-- A concrete orchestrator clock: employee i's k-th log call happens
at time 10 * i + k. -/
def clkRun : Nat → Nat → Nat := fun i k => 10 * i + k

/- ------------------------------------------------------------
   Further helper lemmas
   ------------------------------------------------------------ -/

theorem locCandidates_nil_of_allCandidates_nil {db : List Employee} {pref : String}
    (h : allCandidates db = []) : locCandidates db pref = [] := by
  unfold allCandidates at h
  unfold locCandidates
  rw [List.filter_eq_nil_iff] at h ⊢
  intro a ha
  have h2 := h a ha
  simp only [Bool.not_eq_true] at h2 ⊢
  simp [h2]

theorem find_senior_mentor_senior_DE {db : List Employee} {pref : String} {m : Employee}
    (h : find_senior_mentor db pref = some m) :
    m.role = "Data Engineer" ∧ m.level = "senior" := by
  unfold find_senior_mentor at h
  cases heq : earliestJoined (locCandidates db pref) with
  | some row =>
      rw [heq] at h
      simp only [Option.some.injEq] at h
      subst h
      have hmem := earliestJoined_mem heq
      simp only [locCandidates, List.mem_filter, Bool.and_eq_true, isSeniorDE,
        beq_iff_eq] at hmem
      exact ⟨hmem.2.1.1, hmem.2.1.2⟩
  | none =>
      rw [heq] at h
      have hmem := earliestJoined_mem h
      simp only [allCandidates, List.mem_filter, Bool.and_eq_true, isSeniorDE,
        beq_iff_eq] at hmem
      exact hmem.2

/- ------------------------------------------------------------
   Claim theorems
   ------------------------------------------------------------ -/

/-- Claim C1: mentor selection follows the three-branch policy — the
earliest-joined senior Data Engineer at the preferred location when one
exists there, else the globally earliest-joined senior Data Engineer
when one exists anywhere, else `None`; and absence is fatal for the
requesting employee's pipeline (the chain ends in an error). -/
theorem find_senior_mentor_three_branch_policy (db : List Employee) (pref : String) :
    (locCandidates db pref ≠ [] →
      ∃ m, find_senior_mentor db pref = some m ∧ m ∈ locCandidates db pref ∧
        ∀ x ∈ locCandidates db pref, m.date_joined ≤ x.date_joined) ∧
    (locCandidates db pref = [] → allCandidates db ≠ [] →
      ∃ m, find_senior_mentor db pref = some m ∧ m ∈ allCandidates db ∧
        ∀ x ∈ allCandidates db, m.date_joined ≤ x.date_joined) ∧
    (allCandidates db = [] → find_senior_mentor db pref = none) ∧
    ∀ (env : Env) (today : Int) (clk : Nat → Nat) (emp : Employee),
      find_senior_mentor db emp.location = none →
        ∃ err, (runPipeline db env today clk emp).2 = Except.error err := by
  refine ⟨?_, ?_, ?_, ?_⟩
  · intro hne
    obtain ⟨m, hm⟩ := earliestJoined_ne_nil hne
    exact ⟨m, by simp [find_senior_mentor, hm], earliestJoined_mem hm, earliestJoined_min hm⟩
  · intro hloc hall
    obtain ⟨m, hm⟩ := earliestJoined_ne_nil hall
    refine ⟨m, ?_, earliestJoined_mem hm, earliestJoined_min hm⟩
    simp [find_senior_mentor, earliestJoined_nil_of_eq hloc, hm]
  · intro hall
    simp [find_senior_mentor,
      earliestJoined_nil_of_eq (locCandidates_nil_of_allCandidates_nil hall),
      earliestJoined_nil_of_eq hall]
  · intro env today clk emp hnone
    rw [runPipeline_eq]
    cases hllm : env.llm emp with
    | error e => exact ⟨(e, initState emp), rfl⟩
    | ok body =>
        rw [hnone]
        exact ⟨("No senior mentor available for " ++ emp.name,
                stateThree env clk emp body), rfl⟩

/-- Claim C1 witness: on a concrete store the location branch fires and
returns the Bengaluru senior; on a store with no seniors the selector
yields `none` and a concrete pipeline run for that employee errors. -/
theorem find_senior_mentor_three_branch_policy_witness :
    (locCandidates dbMain "Bengaluru" ≠ [] ∧
      ∃ m, find_senior_mentor dbMain "Bengaluru" = some m ∧
        m ∈ locCandidates dbMain "Bengaluru" ∧
        ∀ x ∈ locCandidates dbMain "Bengaluru", m.date_joined ≤ x.date_joined) ∧
    (find_senior_mentor dbNoSenior empA.location = none ∧
      ∃ err, (runPipeline dbNoSenior envAllOk 100 clkId empA).2 = Except.error err) :=
  ⟨⟨by decide, (find_senior_mentor_three_branch_policy dbMain "Bengaluru").1 (by decide)⟩,
   ⟨by decide,
    (find_senior_mentor_three_branch_policy dbNoSenior "ignored").2.2.2
      envAllOk 100 clkId empA (by decide)⟩⟩

/-- Claim C4: an empty eligibility result makes the orchestrator return
the zero summary with its message, with an empty effect trace, so no
pipeline step and no collaborator is invoked. -/
theorem run_onboarding_empty_returns_zero_summary (db : List Employee) (env : Env)
    (today : Int) (clocks : Nat → Nat → Nat) (w : Nat)
    (h : find_new_joiners_data_engineers db today w = []) :
    run_onboarding_for_new_joiners db env today clocks w =
      ([], ⟨0, 0, [], some "No new Data Engineers found"⟩) := by
  simp [run_onboarding_for_new_joiners, h]

/-- Claim C4 witness: ninety days past the last join, the query is
empty and the orchestrator returns the zero summary with no effects. -/
theorem run_onboarding_empty_returns_zero_summary_witness :
    find_new_joiners_data_engineers dbMain 300 14 = [] ∧
    run_onboarding_for_new_joiners dbMain envAllOk 300 clkRun 14 =
      ([], ⟨0, 0, [], some "No new Data Engineers found"⟩) :=
  ⟨by decide,
   run_onboarding_empty_returns_zero_summary dbMain envAllOk 300 clkRun 14 (by decide)⟩

/-- Claim C5: every record the eligibility query returns is a junior
Data Engineer who joined on or after today minus the window, and the
result is a read-only selection (a sublist) of the store. -/
theorem find_new_joiners_only_recent_junior_DE (db : List Employee) (today : Int)
    (w : Nat) (e : Employee) (h : e ∈ find_new_joiners_data_engineers db today w) :
    e.role = "Data Engineer" ∧ e.level = "junior" ∧
    today - (w : Int) ≤ e.date_joined ∧
    List.Sublist (find_new_joiners_data_engineers db today w) db := by
  simp only [find_new_joiners_data_engineers, List.mem_filter, Bool.and_eq_true,
    beq_iff_eq, decide_eq_true_eq] at h
  exact ⟨h.2.1.1, h.2.2, h.2.1.2, List.filter_sublist db⟩

/-- Claim C5 witness: the query at day 100 with a 14-day window accepts
the junior who joined on day 100. -/
theorem find_new_joiners_only_recent_junior_DE_witness :
    empA ∈ find_new_joiners_data_engineers dbMain 100 14 ∧
    (empA.role = "Data Engineer" ∧ empA.level = "junior" ∧
     (100 : Int) - (14 : Nat) ≤ empA.date_joined ∧
     List.Sublist (find_new_joiners_data_engineers dbMain 100 14) dbMain) :=
  ⟨by decide, find_new_joiners_only_recent_junior_DE dbMain 100 14 empA (by decide)⟩

/-- Claim C6: with a selected mentor in state, the schedule step submits
an event starting on day D+7 at 10:00 and ending on D+7 at 11:00 in the
configured timezone, with exactly the employee and the mentor as
attendees and a request token built from the employee id and the
computed date. -/
theorem schedule_step_computes_meeting_window (env : Env) (today : Int) (t : Nat)
    (s : EmpState) (mentor : Employee) (h : s.mentor = some mentor) :
    ∃ ev : CalendarReq,
      (node_schedule_intro_call env today t s).1 = [Effect.insertEvent ev] ∧
      ev.startTime = ⟨today + 7, 10, 0⟩ ∧ ev.endTime = ⟨today + 7, 11, 0⟩ ∧
      ev.attendees = [s.employee.email, mentor.email] ∧
      ev.timezone = "Asia/Kolkata" ∧
      ev.requestId = "mentor-" ++ toString s.employee.id ++ "-" ++ toString (today + 7) := by
  refine ⟨calendarReqOf s.employee mentor today, ?_, rfl, rfl, rfl, rfl, rfl⟩
  simp [node_schedule_intro_call, h, schedule_calendar_event, calendarReqOf]

/-- State holding a freshly selected mentor, for the C6 witness. -/
def sWithMentor : EmpState := { initState empA with mentor := some mentorB }

/-- Claim C6 witness: for an employee processed on day 50 the submitted
event runs on day 57 from 10:00 to 11:00 with both attendees and the
token built from id 1 and day 57. -/
theorem schedule_step_computes_meeting_window_witness :
    sWithMentor.mentor = some mentorB ∧
    ∃ ev : CalendarReq,
      (node_schedule_intro_call envAllOk 50 9 sWithMentor).1 = [Effect.insertEvent ev] ∧
      ev.startTime = ⟨(50 : Int) + 7, 10, 0⟩ ∧ ev.endTime = ⟨(50 : Int) + 7, 11, 0⟩ ∧
      ev.attendees = [sWithMentor.employee.email, mentorB.email] ∧
      ev.timezone = "Asia/Kolkata" ∧
      ev.requestId = "mentor-" ++ toString sWithMentor.employee.id ++ "-" ++ toString ((50 : Int) + 7) :=
  ⟨rfl, schedule_step_computes_meeting_window envAllOk 50 9 sWithMentor mentorB rfl⟩

/-- Claim C8: mentor selection is deterministic — identical store
contents and the same preferred location give the same mentor record,
also when several candidates share the earliest join date. -/
theorem find_senior_mentor_deterministic (db1 db2 : List Employee) (pref : String)
    (h : db1 = db2) : find_senior_mentor db1 pref = find_senior_mentor db2 pref := by
  rw [h]

/-- Claim C8 witness: two stores with equal contents in which two
seniors share the earliest join date yield the same record, namely the
one that comes first in store order. -/
theorem find_senior_mentor_deterministic_witness :
    dbTie = dbTieCopy ∧
    find_senior_mentor dbTie "Bengaluru" = find_senior_mentor dbTieCopy "Bengaluru" ∧
    find_senior_mentor dbTie "Bengaluru" = some mentorB :=
  ⟨by decide, find_senior_mentor_deterministic dbTie dbTieCopy "Bengaluru" (by decide),
   by decide⟩

/-- Claim C10: a selected mentor is never the onboarded employee, since
eligibility requires level junior while mentor selection requires level
senior. -/
theorem eligible_employee_never_own_mentor (db : List Employee) (today : Int)
    (w : Nat) (loc : String) (e m : Employee)
    (he : e ∈ find_new_joiners_data_engineers db today w)
    (hm : find_senior_mentor db loc = some m) : m ≠ e := by
  have h1 : e.level = "junior" := by
    simp only [find_new_joiners_data_engineers, List.mem_filter, Bool.and_eq_true,
      beq_iff_eq, decide_eq_true_eq] at he
    exact he.2.2
  have h2 := (find_senior_mentor_senior_DE hm).2
  intro hme
  subst hme
  rw [h1] at h2
  exact absurd h2 (by decide)

/-- Claim C10 witness: the junior joiner and the selected Bengaluru
senior are distinct records. -/
theorem eligible_employee_never_own_mentor_witness :
    empA ∈ find_new_joiners_data_engineers dbMain 100 14 ∧
    find_senior_mentor dbMain "Bengaluru" = some mentorB ∧
    mentorB ≠ empA :=
  ⟨by decide, by decide,
   eligible_employee_never_own_mentor dbMain 100 14 "Bengaluru" empA mentorB
     (by decide) (by decide)⟩

/- ------------------------------------------------------------
   Claims C2 and C7 (failure semantics of the chain)
   ------------------------------------------------------------ -/

/-- Final state of a run in which every Gmail delivery fails. -/
def sMailFail : EmpState :=
  finalState envMailFail 100 clkId empA "<html>welcome</html>" mentorB

/-- Final state of a run in which every Asana task creation fails. -/
def sTaskFail : EmpState :=
  finalState envTaskFail 100 clkId empA "<html>welcome</html>" mentorB

/-- Claim C2 counterexample: a delivery failure (`HttpError` swallowed
by `send_message`) and a task-creation failure (`ApiException` swallowed
by `create_task`) do not halt the chain — both runs complete all five
steps, store `None` for the failed call, and still schedule the
meeting. -/
theorem delivery_and_task_failures_do_not_halt :
    (runPipeline dbMain envMailFail 100 clkId empA).2 = Except.ok sMailFail ∧
    sMailFail.email_result = some none ∧
    sMailFail.asana_task = some (some "Onboarding for Kaushal - Data Engineer") ∧
    sMailFail.calendar_event.isSome = true ∧
    sMailFail.logs.length = 5 ∧
    (runPipeline dbMain envTaskFail 100 clkId empA).2 = Except.ok sTaskFail ∧
    sTaskFail.asana_task = some none ∧
    sTaskFail.calendar_event.isSome = true ∧
    sTaskFail.logs.length = 5 :=
  ⟨rfl, rfl, rfl, rfl, rfl, rfl, rfl, rfl, rfl⟩

/-- Claim C2 amended: a step that raises an exception (a text-generation
error, or mentor absence) halts the remaining steps of that employee's
chain immediately; but a delivery failure in the deliver-message step
and a task-creation failure in the file-task step are swallowed by the
collaborator wrappers, stored as `None` results, and do not halt the
chain. -/
theorem step_exception_halts_remaining_steps (db : List Employee) (env : Env)
    (today : Int) (clk : Nat → Nat) (emp : Employee) :
    (∀ msg, env.llm emp = Except.error msg →
      runPipeline db env today clk emp =
        ([Effect.genText emp.name], Except.error (msg, initState emp))) ∧
    (∀ body, env.llm emp = Except.ok body → find_senior_mentor db emp.location = none →
      runPipeline db env today clk emp =
        (effectsUpToMentor env emp,
         Except.error ("No senior mentor available for " ++ emp.name,
                       stateThree env clk emp body)) ∧
      (stateThree env clk emp body).calendar_event = none ∧
      ∀ req : CalendarReq, Effect.insertEvent req ∉ effectsUpToMentor env emp) := by
  constructor
  · intro msg hllm
    rw [runPipeline_eq, hllm]
  · intro body hllm hnone
    refine ⟨?_, rfl, ?_⟩
    · rw [runPipeline_eq, hllm]
      simp only [hnone]
    · intro req hreq
      simp [effectsUpToMentor, subjectOf, taskNameOf] at hreq

/-- Claim C2 amended witness: with no senior in the store, a concrete
run ends in the mentor-step error, keeps `calendar_event` absent and
issued no event-insertion call. -/
theorem step_exception_halts_remaining_steps_witness :
    envAllOk.llm empA = Except.ok "<html>welcome</html>" ∧
    find_senior_mentor dbNoSenior empA.location = none ∧
    (runPipeline dbNoSenior envAllOk 100 clkId empA =
        (effectsUpToMentor envAllOk empA,
         Except.error ("No senior mentor available for " ++ empA.name,
                       stateThree envAllOk clkId empA "<html>welcome</html>")) ∧
      (stateThree envAllOk clkId empA "<html>welcome</html>").calendar_event = none ∧
      ∀ req : CalendarReq, Effect.insertEvent req ∉ effectsUpToMentor envAllOk empA) :=
  ⟨rfl, by decide,
   (step_exception_halts_remaining_steps dbNoSenior envAllOk 100 clkId empA).2
     "<html>welcome</html>" rfl (by decide)⟩

/-- Error message and log length of a failed run. -/
def errInfo : Except (String × EmpState) EmpState → Option (String × Nat)
  | Except.error e => some (e.1, e.2.logs.length)
  | Except.ok _ => none

/-- Claim C7 counterexample: in a store without seniors the mentor step
fails, and the state at the raise carries three log entries — one per
completed step and none from the failing step, which raises before its
`append_log` call. -/
theorem failing_step_appends_no_log_entry :
    errInfo (runPipeline dbNoSenior envAllOk 100 clkId empA).2 =
      some ("No senior mentor available for Kaushal", 3) := rfl

/-- Claim C7 amended: every step that returns appends exactly one
timestamped entry, so a successful run logs exactly five entries in
step order with non-decreasing timestamps; a step that fails raises
before logging, so a failed run carries zero entries (draft-step error)
or three entries (mentor-step error), never an entry from the failing
step. -/
theorem log_entries_per_step (db : List Employee) (env : Env) (today : Int)
    (clk : Nat → Nat) (emp : Employee)
    (h01 : clk 0 ≤ clk 1) (h12 : clk 1 ≤ clk 2)
    (h23 : clk 2 ≤ clk 3) (h34 : clk 3 ≤ clk 4) :
    (∀ s, (runPipeline db env today clk emp).2 = Except.ok s →
      ∃ mentor body, find_senior_mentor db emp.location = some mentor ∧
        env.llm emp = Except.ok body ∧
        s.logs = [⟨clk 0, "Generated email for " ++ emp.email⟩,
                  ⟨clk 1, "Sent welcome email to " ++ emp.email⟩,
                  ⟨clk 2, "Created Asana task for " ++ emp.email⟩,
                  ⟨clk 3, "Selected mentor " ++ mentor.name ++ " for " ++ emp.email⟩,
                  ⟨clk 4, "Scheduled mentor call for " ++ emp.email⟩] ∧
        List.Chain' (fun a b : LogEntry => a.time ≤ b.time) s.logs) ∧
    (∀ e, (runPipeline db env today clk emp).2 = Except.error e →
      e.2.logs.length = 0 ∨ e.2.logs.length = 3) := by
  constructor
  · intro s hs
    rw [runPipeline_eq] at hs
    cases hllm : env.llm emp with
    | error msg => rw [hllm] at hs; simp at hs
    | ok body =>
        rw [hllm] at hs
        cases hfm : find_senior_mentor db emp.location with
        | none => rw [hfm] at hs; simp at hs
        | some mentor =>
            rw [hfm] at hs
            simp only [Except.ok.injEq] at hs
            refine ⟨mentor, body, rfl, rfl, ?_, ?_⟩
            · rw [← hs]; simp [finalState]
            · rw [← hs]
              simp only [finalState, List.chain'_cons, List.chain'_singleton, and_true]
              exact ⟨h01, h12, h23, h34⟩
  · intro e he
    rw [runPipeline_eq] at he
    cases hllm : env.llm emp with
    | error msg =>
        rw [hllm] at he
        simp only [Except.error.injEq] at he
        left
        rw [← he]
        simp [initState]
    | ok body =>
        rw [hllm] at he
        cases hfm : find_senior_mentor db emp.location with
        | none =>
            rw [hfm] at he
            simp only [Except.error.injEq] at he
            right
            rw [← he]
            simp [stateThree]
        | some mentor => rw [hfm] at he; simp at he

/-- The final state of the all-success concrete run, for witnesses. -/
def okStA : EmpState := finalState envAllOk 100 clkId empA "<html>welcome</html>" mentorB

/-- Claim C7 amended witness: the concrete all-success run logs exactly
the five entries, at times 0 through 4, in non-decreasing order. -/
theorem log_entries_per_step_witness :
    clkId 0 ≤ clkId 1 ∧ clkId 1 ≤ clkId 2 ∧ clkId 2 ≤ clkId 3 ∧ clkId 3 ≤ clkId 4 ∧
    (∃ mentor body, find_senior_mentor dbMain empA.location = some mentor ∧
      envAllOk.llm empA = Except.ok body ∧
      okStA.logs = [⟨clkId 0, "Generated email for " ++ empA.email⟩,
                    ⟨clkId 1, "Sent welcome email to " ++ empA.email⟩,
                    ⟨clkId 2, "Created Asana task for " ++ empA.email⟩,
                    ⟨clkId 3, "Selected mentor " ++ mentor.name ++ " for " ++ empA.email⟩,
                    ⟨clkId 4, "Scheduled mentor call for " ++ empA.email⟩] ∧
      List.Chain' (fun a b : LogEntry => a.time ≤ b.time) okStA.logs) :=
  ⟨by decide, by decide, by decide, by decide,
   (log_entries_per_step dbMain envAllOk 100 clkId empA
      (by decide) (by decide) (by decide) (by decide)).1 okStA rfl⟩

/-- Claim C9: a completed run issues its external calls in exactly the
fixed order — text generation, delivery, workspace invite, task
creation, mentor query, event insertion — so the steps run in the fixed
edge order and the invite precedes the task creation inside the
file-task step. -/
theorem pipeline_steps_in_fixed_order (db : List Employee) (env : Env)
    (today : Int) (clk : Nat → Nat) (emp : Employee) (s : EmpState)
    (h : (runPipeline db env today clk emp).2 = Except.ok s) :
    ∃ mentor, find_senior_mentor db emp.location = some mentor ∧
      (runPipeline db env today clk emp).1 =
        [Effect.genText emp.name,
         Effect.deliver "me" emp.email (subjectOf emp),
         Effect.inviteWorkspace env.workspaceGid emp.email,
         Effect.createTask env.workspaceGid env.projectGid emp.email (taskNameOf emp),
         Effect.mentorQuery emp.location,
         Effect.insertEvent (calendarReqOf emp mentor today)] := by
  cases hllm : env.llm emp with
  | error msg => rw [runPipeline_eq, hllm] at h; simp at h
  | ok body =>
      cases hfm : find_senior_mentor db emp.location with
      | none =>
          rw [runPipeline_eq, hllm] at h
          simp only [hfm] at h
          simp at h
      | some mentor =>
          refine ⟨mentor, rfl, ?_⟩
          rw [runPipeline_eq, hllm]
          simp only [hfm]
          simp [effectsUpToMentor]

/-- Claim C9 witness: the concrete all-success run issues the six calls
in the fixed order, the workspace invite before the task creation. -/
theorem pipeline_steps_in_fixed_order_witness :
    (runPipeline dbMain envAllOk 100 clkId empA).2 = Except.ok okStA ∧
    (∃ mentor, find_senior_mentor dbMain empA.location = some mentor ∧
      (runPipeline dbMain envAllOk 100 clkId empA).1 =
        [Effect.genText empA.name,
         Effect.deliver "me" empA.email (subjectOf empA),
         Effect.inviteWorkspace envAllOk.workspaceGid empA.email,
         Effect.createTask envAllOk.workspaceGid envAllOk.projectGid empA.email (taskNameOf empA),
         Effect.mentorQuery empA.location,
         Effect.insertEvent (calendarReqOf empA mentor 100)]) :=
  ⟨rfl, pipeline_steps_in_fixed_order dbMain envAllOk 100 clkId empA okStA rfl⟩

/- ------------------------------------------------------------
   Claim C3 (per-employee failure isolation in the orchestrator)
   ------------------------------------------------------------ -/

/-- Whether the i-th employee's chain runs to completion. -/
def employeeSucceeds (db : List Employee) (env : Env) (today : Int)
    (clocks : Nat → Nat → Nat) (p : Nat × Employee) : Bool :=
  match (runPipeline db env today (clocks p.1) p.2).2 with
  | Except.ok _ => true
  | Except.error _ => false

/-- The descriptor the loop boundary records for the i-th employee when
the chain raises: the employee's address paired with the reason. -/
def failureDescriptor (db : List Employee) (env : Env) (today : Int)
    (clocks : Nat → Nat → Nat) (p : Nat × Employee) : Option String :=
  match (runPipeline db env today (clocks p.1) p.2).2 with
  | Except.ok _ => none
  | Except.error e => some (p.2.email ++ ": " ++ e.1)

theorem processAll_spec (db : List Employee) (env : Env) (today : Int)
    (clocks : Nat → Nat → Nat) :
    ∀ (js : List Employee) (i : Nat),
      (processAll db env today clocks i js).1 =
        ((js.enumFrom i).filter (employeeSucceeds db env today clocks)).length ∧
      (processAll db env today clocks i js).2.1 =
        (js.enumFrom i).filterMap (failureDescriptor db env today clocks) := by
  intro js
  induction js with
  | nil => intro i; simp [processAll, List.enumFrom]
  | cons emp rest ih =>
      intro i
      have ihr := ih (i + 1)
      simp only [processAll, List.enumFrom]
      cases hr : (runPipeline db env today (clocks i) emp).2 with
      | ok s =>
          simp [List.filter_cons, List.filterMap_cons, employeeSucceeds,
                failureDescriptor, hr, ihr.1, ihr.2]
      | error e =>
          simp [List.filter_cons, List.filterMap_cons, employeeSucceeds,
                failureDescriptor, hr, ihr.1, ihr.2]

theorem succeeds_failures_partition (db : List Employee) (env : Env) (today : Int)
    (clocks : Nat → Nat → Nat) :
    ∀ l : List (Nat × Employee),
      (l.filter (employeeSucceeds db env today clocks)).length +
      (l.filterMap (failureDescriptor db env today clocks)).length = l.length := by
  intro l
  induction l with
  | nil => simp
  | cons p rest ih =>
      cases hr : (runPipeline db env today (clocks p.1) p.2).2 with
      | ok s =>
          simp [List.filter_cons, List.filterMap_cons, employeeSucceeds,
                failureDescriptor, hr]
          omega
      | error e =>
          simp [List.filter_cons, List.filterMap_cons, employeeSucceeds,
                failureDescriptor, hr]
          omega

theorem length_enumFrom (i : Nat) (l : List Employee) :
    (l.enumFrom i).length = l.length := by
  induction l generalizing i with
  | nil => simp [List.enumFrom]
  | cons a rest ih => simp [List.enumFrom, ih]

/-- Claim C3: with a non-empty eligibility result, each eligible
employee runs on a fresh state seeded with that employee and an empty
log; an exception is caught exactly at the per-employee loop boundary
and recorded as the employee's address paired with the reason, and
every eligible employee is accounted for — successes and failures
partition the processed set, so no failure stops the loop. -/
theorem orchestrator_isolates_failures (db : List Employee) (env : Env)
    (today : Int) (clocks : Nat → Nat → Nat) (w : Nat)
    (h : find_new_joiners_data_engineers db today w ≠ []) :
    (∀ emp : Employee, initState emp = ⟨emp, none, none, none, none, none, []⟩) ∧
    (run_onboarding_for_new_joiners db env today clocks w).2.processed =
      (find_new_joiners_data_engineers db today w).length ∧
    (run_onboarding_for_new_joiners db env today clocks w).2.failures =
      ((find_new_joiners_data_engineers db today w).enumFrom 0).filterMap
        (failureDescriptor db env today clocks) ∧
    (run_onboarding_for_new_joiners db env today clocks w).2.successes =
      (((find_new_joiners_data_engineers db today w).enumFrom 0).filter
        (employeeSucceeds db env today clocks)).length ∧
    (run_onboarding_for_new_joiners db env today clocks w).2.successes +
      (run_onboarding_for_new_joiners db env today clocks w).2.failures.length =
      (find_new_joiners_data_engineers db today w).length := by
  have hne : (find_new_joiners_data_engineers db today w).isEmpty = false := by
    cases hjs : find_new_joiners_data_engineers db today w with
    | nil => exact absurd hjs h
    | cons a rest => simp
  have hspec := processAll_spec db env today clocks
    (find_new_joiners_data_engineers db today w) 0
  refine ⟨fun emp => rfl, ?_, ?_, ?_, ?_⟩
  · simp [run_onboarding_for_new_joiners, hne]
  · simp only [run_onboarding_for_new_joiners, hne, Bool.false_eq_true, if_false]
    exact hspec.2
  · simp only [run_onboarding_for_new_joiners, hne, Bool.false_eq_true, if_false]
    exact hspec.1
  · simp only [run_onboarding_for_new_joiners, hne, Bool.false_eq_true, if_false]
    rw [hspec.1, hspec.2,
        succeeds_failures_partition db env today clocks,
        length_enumFrom]

/-- Claim C3 witness: with two eligible joiners and an LLM that raises
only for the second, the run reports both employees — one success and
one recorded descriptor — and the loop was not stopped by the
failure. -/
theorem orchestrator_isolates_failures_witness :
    find_new_joiners_data_engineers dbTwo 100 14 ≠ [] ∧
    ((run_onboarding_for_new_joiners dbTwo envAshaLlmFails 100 clkRun 14).2.processed =
        (find_new_joiners_data_engineers dbTwo 100 14).length ∧
      (run_onboarding_for_new_joiners dbTwo envAshaLlmFails 100 clkRun 14).2.failures =
        ((find_new_joiners_data_engineers dbTwo 100 14).enumFrom 0).filterMap
          (failureDescriptor dbTwo envAshaLlmFails 100 clkRun)) ∧
    (run_onboarding_for_new_joiners dbTwo envAshaLlmFails 100 clkRun 14).2 =
      ⟨2, 1, ["asha@example.com: generation error"], none⟩ :=
  ⟨by decide,
   ⟨(orchestrator_isolates_failures dbTwo envAshaLlmFails 100 clkRun 14 (by decide)).2.1,
    (orchestrator_isolates_failures dbTwo envAshaLlmFails 100 clkRun 14 (by decide)).2.2.1⟩,
   by decide⟩

end Onboarding
